import Mathlib

/-!
Shallow embedding of the geospatial resolution and routing engine of the
deliveryFlow repository, and proofs of the spec's claims about it.

Sources embedded:
* `src/services/maps.js` — `MapsService`: `geocodeAddress`, `calculateRoute`,
  `getCurrentLocationWithFallback`, `calculateDistance`.
* `src/components/DeliveryRouteMap.jsx` — `optimizeRoute` (nearest-neighbor loop).
* `src/pages/DeliveryDashboard.jsx` — the periodic tracking tick inside
  `startLocationTracking`, and the tracking-set transitions in `updateOrderStatus`.

Numbers are modelled as real numbers; JavaScript `NaN`/`undefined` payloads and
truthiness checks are modelled by explicit sum types wherever the source
branches on them. External I/O (fetch, the device sensor) is modelled by
oracle parameters giving each call's outcome.
-/

namespace DeliveryFlow

/-- A latitude/longitude pair, as the plain `{lat, lng}` objects the source
passes around. -/
structure Coord where
  lat : ℝ
  lng : ℝ

/-- The object returned by `MapsService.calculateDistance` (maps.js:685-689). -/
structure DistanceResult where
  meters : ℝ
  kilometers : ℝ
  miles : ℝ

/-- JavaScript `Math.atan2 y x`: the angle of the point `(x, y)`, in `(-π, π]`. -/
noncomputable def atan2 (y x : ℝ) : ℝ :=
  if 0 < x then Real.arctan (y / x)
  else if x < 0 then
    (if 0 ≤ y then Real.arctan (y / x) + Real.pi else Real.arctan (y / x) - Real.pi)
  else if 0 < y then Real.pi / 2
  else if y < 0 then -(Real.pi / 2)
  else 0

/-- The intermediate `a` of the haversine formula, maps.js:673-680:
`sin²(Δφ/2) + cos φ1 · cos φ2 · sin²(Δλ/2)` with angles converted from
degrees to radians. -/
noncomputable def haversineA (point1 point2 : Coord) : ℝ :=
  Real.sin ((point2.lat - point1.lat) * Real.pi / 180 / 2) *
      Real.sin ((point2.lat - point1.lat) * Real.pi / 180 / 2)
    + Real.cos (point1.lat * Real.pi / 180) * Real.cos (point2.lat * Real.pi / 180) *
        (Real.sin ((point2.lng - point1.lng) * Real.pi / 180 / 2) *
          Real.sin ((point2.lng - point1.lng) * Real.pi / 180 / 2))

/-- maps.js:672-683: `R * c` with `R = 6371e3` and
`c = 2 * atan2(sqrt a, sqrt (1 - a))`. -/
noncomputable def haversineMeters (point1 point2 : Coord) : ℝ :=
  6371e3 * (2 * atan2 (Real.sqrt (haversineA point1 point2))
    (Real.sqrt (1 - haversineA point1 point2)))

/-- `MapsService.calculateDistance` (maps.js:654-690) on well-formed numeric
inputs (the guards at lines 656-670 only reject non-numeric/NaN arguments,
which the `Coord` type excludes): the haversine distance packaged as
`{meters, kilometers, miles}`. -/
noncomputable def calculateDistance (point1 point2 : Coord) : DistanceResult :=
  { meters := haversineMeters point1 point2
    kilometers := haversineMeters point1 point2 / 1000
    miles := haversineMeters point1 point2 * 0.000621371 }

theorem haversineA_symm (p q : Coord) : haversineA p q = haversineA q p := by
  unfold haversineA
  have e1 : (p.lat - q.lat) * Real.pi / 180 / 2 = -((q.lat - p.lat) * Real.pi / 180 / 2) := by
    ring
  have e2 : (p.lng - q.lng) * Real.pi / 180 / 2 = -((q.lng - p.lng) * Real.pi / 180 / 2) := by
    ring
  rw [e1, e2, Real.sin_neg, Real.sin_neg]
  ring

theorem haversineA_self (p : Coord) : haversineA p p = 0 := by
  unfold haversineA
  simp

theorem atan2_zero_one : atan2 0 1 = 0 := by
  unfold atan2
  rw [if_pos one_pos]
  simp

theorem haversineMeters_symm (p q : Coord) : haversineMeters p q = haversineMeters q p := by
  unfold haversineMeters
  rw [haversineA_symm]

theorem haversineMeters_self (p : Coord) : haversineMeters p p = 0 := by
  unfold haversineMeters
  rw [haversineA_self]
  norm_num [atan2_zero_one]

/-- C8: for all coordinate pairs `a`, `b` (in particular all valid ones),
`calculateDistance a b = calculateDistance b a`, and `calculateDistance a a`
is the zero distance; the computation is the pure haversine formula on a
sphere of radius 6 371 000 m. -/
theorem calculateDistance_symm_self (a b : Coord) :
    calculateDistance a b = calculateDistance b a ∧ (calculateDistance a a).meters = 0 := by
  constructor
  · unfold calculateDistance
    rw [haversineMeters_symm]
  · unfold calculateDistance
    simp [haversineMeters_self]

/-! ### Address geocoding (`MapsService.geocodeAddress`, maps.js:80-153) -/

/-- A string-valued field of a Nominatim result (`firstResult.lat` /
`firstResult.lon`), classified by exactly the two checks the source applies:
JS truthiness (`!firstResult.lat`, maps.js:129) and float parsing
(`parseFloat` + `isNaN`, maps.js:133-139). `numStr x` is a non-empty string
parsing to the number `x` (note `"0"` is truthy); `junk` is a non-empty string
that parses to NaN. -/
inductive StrField where
  | missing
  | empty
  | numStr (x : ℝ)
  | junk

/-- JS truthiness of the raw field: only `undefined`/`null`/`""` are falsy. -/
def StrField.truthy : StrField → Bool
  | .missing => false
  | .empty => false
  | .numStr _ => true
  | .junk => true

/-- `parseFloat` on the raw field; `none` models NaN. -/
def StrField.parseFloat : StrField → Option ℝ
  | .numStr x => some x
  | _ => none

/-- One entry of the Nominatim search response array. -/
structure GeoHit where
  lat : StrField
  lon : StrField

/-- Outcome of the `fetch` + `response.json()` at maps.js:111-121, as the
following code distinguishes them: a thrown error (network failure or
unparsable body), a non-2xx response (`!response.ok`, with its status and
statusText), a JSON value that is not an array, or the parsed result array. -/
inductive FetchOutcome where
  | throwing (msg : String)
  | notOk (status statusText : String)
  | okNonArray
  | okData (data : List GeoHit)

/-- JavaScript `String.prototype.trim`: strip leading and trailing
whitespace. (Defined over the character list so that it evaluates by
`decide`.) -/
def jsTrim (s : String) : String :=
  ⟨((s.data.dropWhile Char.isWhitespace).reverse.dropWhile Char.isWhitespace).reverse⟩

/-- JavaScript `String.prototype.toLowerCase` (characterwise). Used only to
state that two addresses differ solely in letter case. -/
def jsToLower (s : String) : String :=
  ⟨s.data.map Char.toLower⟩

/-- The wrapper the catch-all at maps.js:151 puts around every failure:
`Geocoding failed for "<trimmed address>": <cause>`. -/
def geocodeFailMsg (trimmedAddress cause : String) : String :=
  "Geocoding failed for \"" ++ trimmedAddress ++ "\": " ++ cause

/-- `MapsService.geocodeAddress` (maps.js:80-153) for a string argument, over
an explicit cache (the `geocodingCache` Map, as an association list whose head
entry wins, matching `Map.set`/`Map.get`) and a fetch oracle giving the
Nominatim outcome for the trimmed address. Returns the result, the updated
cache, and whether a network request was issued. -/
def geocodeAddress (fetch : String → FetchOutcome) (cache : List (String × Coord))
    (address : String) : Except String Coord × List (String × Coord) × Bool :=
  let trimmedAddress := jsTrim address
  if trimmedAddress = "" then
    (.error "Address cannot be empty", cache, false)
  else
    match cache.lookup trimmedAddress with
    | some c => (.ok c, cache, false)
    | none =>
      match fetch trimmedAddress with
      | .throwing msg => (.error (geocodeFailMsg trimmedAddress msg), cache, true)
      | .notOk status statusText =>
          (.error (geocodeFailMsg trimmedAddress
            ("Geocoding request failed: " ++ status ++ " " ++ statusText)), cache, true)
      | .okNonArray =>
          (.error (geocodeFailMsg trimmedAddress
            ("No results found for address: " ++ trimmedAddress)), cache, true)
      | .okData [] =>
          (.error (geocodeFailMsg trimmedAddress
            ("No results found for address: " ++ trimmedAddress)), cache, true)
      | .okData (firstResult :: _) =>
        if firstResult.lat.truthy = false ∨ firstResult.lon.truthy = false then
          (.error (geocodeFailMsg trimmedAddress "Invalid coordinates in geocoding result"),
            cache, true)
        else
          match firstResult.lat.parseFloat, firstResult.lon.parseFloat with
          | some la, some ln =>
              (.ok ⟨la, ln⟩, (trimmedAddress, (⟨la, ln⟩ : Coord)) :: cache, true)
          | _, _ =>
              (.error (geocodeFailMsg trimmedAddress "Invalid coordinates after parsing"),
                cache, true)

/-- Classifier for the cause string a given fetch outcome produces: `some c`
when the outcome makes `geocodeAddress` fail with inner message `c`, `none`
when it yields a usable hit. -/
def geocodeCause (trimmedAddress : String) : FetchOutcome → Option String
  | .throwing msg => some msg
  | .notOk status statusText =>
      some ("Geocoding request failed: " ++ status ++ " " ++ statusText)
  | .okNonArray => some ("No results found for address: " ++ trimmedAddress)
  | .okData [] => some ("No results found for address: " ++ trimmedAddress)
  | .okData (firstResult :: _) =>
    if firstResult.lat.truthy = false ∨ firstResult.lon.truthy = false then
      some "Invalid coordinates in geocoding result"
    else
      match firstResult.lat.parseFloat, firstResult.lon.parseFloat with
      | some _, some _ => none
      | _, _ => some "Invalid coordinates after parsing"



theorem geocode_hit (fetch : String → FetchOutcome) (cache : List (String × Coord))
    (address : String) (v : Coord) (hne : jsTrim address ≠ "")
    (hl : cache.lookup (jsTrim address) = some v) :
    geocodeAddress fetch cache address = (.ok v, cache, false) := by
  unfold geocodeAddress
  simp [hne, hl]

theorem geocode_fail (fetch : String → FetchOutcome) (cache : List (String × Coord))
    (address cause : String)
    (hne : jsTrim address ≠ "")
    (hmiss : cache.lookup (jsTrim address) = none)
    (hcause : geocodeCause (jsTrim address) (fetch (jsTrim address)) = some cause) :
    geocodeAddress fetch cache address
      = (.error (geocodeFailMsg (jsTrim address) cause), cache, true) := by
  unfold geocodeAddress
  cases hf : fetch (jsTrim address) with
  | throwing msg =>
    rw [hf] at hcause
    simp [geocodeCause] at hcause
    simp [hne, hmiss, hf, hcause]
  | notOk status statusText =>
    rw [hf] at hcause
    simp [geocodeCause] at hcause
    simp [hne, hmiss, hf, hcause]
  | okNonArray =>
    rw [hf] at hcause
    simp [geocodeCause] at hcause
    simp [hne, hmiss, hf, hcause]
  | okData data =>
    rw [hf] at hcause
    cases data with
    | nil =>
      simp [geocodeCause] at hcause
      simp [hne, hmiss, hf, hcause]
    | cons f rest =>
      by_cases htr : f.lat.truthy = false ∨ f.lon.truthy = false
      · simp [geocodeCause, htr] at hcause
        simp [hne, hmiss, hf, htr, hcause]
      · cases hpla : f.lat.parseFloat with
        | none =>
          simp [geocodeCause, htr, hpla] at hcause
          simp [hne, hmiss, hf, htr, hpla, hcause]
        | some la =>
          cases hplo : f.lon.parseFloat with
          | none =>
            simp [geocodeCause, htr, hpla, hplo] at hcause
            simp [hne, hmiss, hf, htr, hpla, hplo, hcause]
          | some ln =>
            simp [geocodeCause, htr, hpla, hplo] at hcause

theorem geocode_fresh (fetch : String → FetchOutcome) (cache : List (String × Coord))
    (address : String) (la ln : ℝ) (rest : List GeoHit)
    (hne : jsTrim address ≠ "")
    (hmiss : cache.lookup (jsTrim address) = none)
    (hfetch : fetch (jsTrim address) = .okData (⟨.numStr la, .numStr ln⟩ :: rest)) :
    geocodeAddress fetch cache address
      = (.ok ⟨la, ln⟩, (jsTrim address, (⟨la, ln⟩ : Coord)) :: cache, true) := by
  unfold geocodeAddress
  simp [hne, hmiss, hfetch, StrField.truthy, StrField.parseFloat]

theorem geocode_ok_lookup (fetch : String → FetchOutcome) (cache : List (String × Coord))
    (address : String) (v : Coord) (cache' : List (String × Coord)) (b : Bool)
    (h1 : geocodeAddress fetch cache address = (.ok v, cache', b)) :
    jsTrim address ≠ "" ∧ cache'.lookup (jsTrim address) = some v := by
  unfold geocodeAddress at h1
  by_cases ht : jsTrim address = ""
  · simp [ht] at h1
  · refine ⟨ht, ?_⟩
    rw [if_neg ht] at h1
    cases hc : cache.lookup (jsTrim address) with
    | some c =>
      rw [hc] at h1
      simp [Prod.ext_iff] at h1
      obtain ⟨hv, hcache, _⟩ := h1
      rw [← hcache, hc, hv]
    | none =>
      rw [hc] at h1
      cases hf : fetch (jsTrim address) with
      | throwing msg => rw [hf] at h1; simp [Prod.ext_iff] at h1
      | notOk s st => rw [hf] at h1; simp [Prod.ext_iff] at h1
      | okNonArray => rw [hf] at h1; simp [Prod.ext_iff] at h1
      | okData data =>
        rw [hf] at h1
        cases data with
        | nil => simp [Prod.ext_iff] at h1
        | cons f rest =>
          by_cases htr : f.lat.truthy = false ∨ f.lon.truthy = false
          · simp [htr, Prod.ext_iff] at h1
          · cases hpla : f.lat.parseFloat with
            | none => simp [htr, hpla, Prod.ext_iff] at h1
            | some la =>
              cases hplo : f.lon.parseFloat with
              | none => simp [htr, hpla, hplo, Prod.ext_iff] at h1
              | some ln =>
                simp [htr, hpla, hplo, Prod.ext_iff] at h1
                obtain ⟨hv, hcache, _⟩ := h1
                rw [← hcache, ← hv]
                simp [List.lookup]



/-- C5 (amended): the cache key is the trimmed (not case-folded) address, so
for every address resolved successfully once, resolving any text with the
same trimmed form again is a cache hit: no network call, identical
coordinate. -/
theorem geocodeAddress_second_resolution_is_cache_hit
    (fetch : String → FetchOutcome) (cache cache' : List (String × Coord))
    (address address' : String) (v : Coord) (b : Bool)
    (htrim : jsTrim address' = jsTrim address)
    (h1 : geocodeAddress fetch cache address = (.ok v, cache', b)) :
    geocodeAddress fetch cache' address' = (.ok v, cache', false) := by
  obtain ⟨hne, hl⟩ := geocode_ok_lookup fetch cache address v cache' b h1
  refine geocode_hit fetch cache' address' v ?_ ?_
  · rw [htrim]; exact hne
  · rw [htrim]; exact hl

theorem geocodeAddress_second_resolution_is_cache_hit_witness :
    jsTrim " X " = jsTrim "X"
    ∧ geocodeAddress (fun _ => .okData [⟨.numStr 1, .numStr 2⟩]) [] "X"
        = (.ok ⟨1, 2⟩, [("X", (⟨1, 2⟩ : Coord))], true)
    ∧ geocodeAddress (fun _ => .okData [⟨.numStr 1, .numStr 2⟩])
        [("X", (⟨1, 2⟩ : Coord))] " X "
        = (.ok ⟨1, 2⟩, [("X", (⟨1, 2⟩ : Coord))], false) := by
  have htr : jsTrim "X" = "X" := by decide
  have h1 : geocodeAddress (fun _ => .okData [⟨.numStr 1, .numStr 2⟩]) [] "X"
      = (.ok ⟨1, 2⟩, [("X", (⟨1, 2⟩ : Coord))], true) := by
    have := geocode_fresh (fun _ => .okData [⟨.numStr 1, .numStr 2⟩]) [] "X" 1 2 []
      (by rw [htr]; decide) (by rfl) (by rfl)
    rwa [htr] at this
  exact ⟨by decide, h1,
    geocodeAddress_second_resolution_is_cache_hit _ _ _ "X" " X " _ _ (by decide) h1⟩

/-- C5 counterexample: the cache key is NOT case-folded. With the cache
pre-seeded for "123 Main St", resolving "123 main st" (same text up to
letter case) is a cache miss: the geocoding collaborator IS invoked (third
component `true`) and the cached coordinate (10, 20) is not returned. -/
theorem geocodeAddress_case_variant_is_miss :
    jsToLower (jsTrim "123 main st") = jsToLower (jsTrim "123 Main St")
    ∧ geocodeAddress (fun _ => .throwing "network down")
        [("123 Main St", (⟨10, 20⟩ : Coord))] "123 main st"
      = (.error (geocodeFailMsg "123 main st" "network down"),
         [("123 Main St", (⟨10, 20⟩ : Coord))], true) := by
  have htr : jsTrim "123 main st" = "123 main st" := by decide
  have hne : ("123 main st" == "123 Main St") = false := by decide
  refine ⟨by decide, ?_⟩
  have h := geocode_fail (fun _ => .throwing "network down")
    [("123 Main St", (⟨10, 20⟩ : Coord))] "123 main st" "network down"
    (by rw [htr]; decide) (by rw [htr]; simp [List.lookup, hne]) (by rfl)
  rwa [htr] at h

/-- C6: with the cache missed, every failing fetch outcome (thrown network
error, non-OK response, non-array or empty result set, falsy or unparsable
coordinate fields) makes `geocodeAddress` fail with the typed wrapper message
naming the trimmed address and the cause, and in particular it never returns
any coordinate in place of the failure. -/
theorem geocodeAddress_failure_typed
    (fetch : String → FetchOutcome) (cache : List (String × Coord))
    (address cause : String)
    (hne : jsTrim address ≠ "")
    (hmiss : cache.lookup (jsTrim address) = none)
    (hcause : geocodeCause (jsTrim address) (fetch (jsTrim address)) = some cause) :
    geocodeAddress fetch cache address
      = (.error (geocodeFailMsg (jsTrim address) cause), cache, true)
    ∧ ∀ v : Coord, (geocodeAddress fetch cache address).1 ≠ .ok v := by
  have h := geocode_fail fetch cache address cause hne hmiss hcause
  refine ⟨h, fun v hv => ?_⟩
  rw [h] at hv
  exact Except.noConfusion hv

theorem geocodeAddress_failure_typed_witness :
    geocodeAddress (fun _ => .notOk "500" "Server Error") [] "A"
      = (.error (geocodeFailMsg "A" "Geocoding request failed: 500 Server Error"), [], true) := by
  have htr : jsTrim "A" = "A" := by decide
  have h := (geocodeAddress_failure_typed (fun _ => .notOk "500" "Server Error") [] "A"
    "Geocoding request failed: 500 Server Error"
    (by rw [htr]; decide) (by rfl) (by rfl)).1
  rwa [htr] at h

/-- C7 (amended): the resolver validates only that the top match's fields are
truthy and parse to numbers; it performs NO latitude/longitude range check,
so any parsed pair — in range or not — is returned as a success and written
to the cache. -/
theorem geocodeAddress_no_range_validation
    (fetch : String → FetchOutcome) (cache : List (String × Coord))
    (address : String) (la ln : ℝ) (rest : List GeoHit)
    (hne : jsTrim address ≠ "")
    (hmiss : cache.lookup (jsTrim address) = none)
    (hfetch : fetch (jsTrim address) = .okData (⟨.numStr la, .numStr ln⟩ :: rest)) :
    geocodeAddress fetch cache address
      = (.ok ⟨la, ln⟩, (jsTrim address, (⟨la, ln⟩ : Coord)) :: cache, true) :=
  geocode_fresh fetch cache address la ln rest hne hmiss hfetch

theorem geocodeAddress_no_range_validation_witness :
    geocodeAddress (fun _ => .okData [⟨.numStr 1, .numStr 2⟩]) [] "B"
      = (.ok ⟨1, 2⟩, [("B", (⟨1, 2⟩ : Coord))], true) := by
  have htr : jsTrim "B" = "B" := by decide
  have h := geocodeAddress_no_range_validation (fun _ => .okData [⟨.numStr 1, .numStr 2⟩])
    [] "B" 1 2 [] (by rw [htr]; decide) (by rfl) (by rfl)
  rwa [htr] at h

/-- C7 counterexample: a top match with latitude 999 (outside [-90, 90]) is
returned as a success and cached; no range validation happens. -/
theorem geocodeAddress_out_of_range_accepted :
    geocodeAddress (fun _ => .okData [⟨.numStr 999, .numStr 0⟩]) [] "A"
      = (.ok ⟨999, 0⟩, [("A", (⟨999, 0⟩ : Coord))], true)
    ∧ (90 : ℝ) < 999 := by
  have htr : jsTrim "A" = "A" := by decide
  have h := geocode_fresh (fun _ => .okData [⟨.numStr 999, .numStr 0⟩]) [] "A" 999 0 []
    (by rw [htr]; decide) (by rfl) (by rfl)
  rw [htr] at h
  exact ⟨h, by norm_num⟩

/-! ### Route calculation (`MapsService.calculateRoute`, maps.js:254-347) -/

/-- A destination (or origin) argument of `calculateRoute`: either a free-text
address string or an already-resolved coordinate object, as the source's
`typeof dest === "string"` dispatch (maps.js:287, 299) distinguishes them. -/
inductive Dest where
  | addr (s : String)
  | coord (c : Coord)

/-- JS truthiness of the argument (`!origin` at maps.js:257, `!dest` at
maps.js:271): among the modelled values only the empty string is falsy. -/
def Dest.isFalsy : Dest → Bool
  | .addr s => s = ""
  | .coord _ => false

/-- The destination filter at maps.js:270-278: drop falsy values, and drop
strings that are empty after trimming. -/
def Dest.keep : Dest → Bool
  | .addr s => !(s = "" || jsTrim s = "")
  | .coord _ => true

/-- One entry of `failedDestinations` (maps.js:302). -/
structure FailedDestination where
  index : ℕ
  destination : Dest
  error : String

/-- The result object built at maps.js:334-340. -/
structure RouteResult where
  waypoints : List Coord
  totalDistance : ℤ
  totalDuration : ℤ
  route : List Coord
  failedDestinations : List FailedDestination

/-- The per-destination geocoding loop at maps.js:296-304: resolved
coordinates are collected in order, failures are recorded with their index in
the valid-destination list. `geo` abstracts `this.geocodeAddress`'s result
for each address (deterministic within one call: hits for a repeated address
come from the cache). -/
def resolveDestinations (geo : String → Except String Coord) :
    List Dest → ℕ → List Coord → List FailedDestination →
      List Coord × List FailedDestination
  | [], _, coords, failed => (coords, failed)
  | .coord c :: rest, i, coords, failed =>
      resolveDestinations geo rest (i + 1) (coords ++ [c]) failed
  | .addr s :: rest, i, coords, failed =>
      match geo s with
      | .ok c => resolveDestinations geo rest (i + 1) (coords ++ [c]) failed
      | .error e => resolveDestinations geo rest (i + 1) coords (failed ++ [⟨i, .addr s, e⟩])

/-- The leg-summation loop at maps.js:317-332 over consecutive waypoint
pairs: legs whose metre value is negative (or NaN, unrepresentable here) are
skipped; duration accrues `m / 1000 * 1.5` minutes per leg. Returns the pair
(totalDistance, totalDuration) before rounding. -/
noncomputable def sumLegs : List Coord → ℝ × ℝ
  | p :: q :: rest =>
      let acc := sumLegs (q :: rest)
      let m := (calculateDistance p q).meters
      if m < 0 then acc else (acc.1 + m, acc.2 + m / 1000 * 1.5)
  | _ => (0, 0)

/-- `MapsService.calculateRoute` (maps.js:254-347): validate inputs, filter
destinations, resolve origin and destinations, then build the result with
rounded totals. An `error` result models the function throwing. -/
noncomputable def calculateRoute (geo : String → Except String Coord)
    (origin : Dest) (destinations : List Dest) : Except String RouteResult :=
  if origin.isFalsy then .error "Origin is required for route calculation"
  else if destinations.length = 0 then .error "At least one destination is required"
  else
    let validDestinations := destinations.filter Dest.keep
    if validDestinations.length = 0 then
      .error "No valid destinations provided after filtering"
    else
      let originResolved : Except String Coord :=
        match origin with
        | .coord c => .ok c
        | .addr s =>
          match geo s with
          | .ok c => .ok c
          | .error e => .error ("Failed to geocode origin \"" ++ s ++ "\": " ++ e)
      match originResolved with
      | .error e => .error e
      | .ok originCoords =>
        let rf := resolveDestinations geo validDestinations 0 [] []
        if rf.1.length = 0 then
          .error ("Failed to geocode any destinations. Errors: "
            ++ String.intercalate ", " (rf.2.map FailedDestination.error))
        else
          let waypoints := originCoords :: rf.1
          let legs := sumLegs waypoints
          .ok { waypoints := waypoints, totalDistance := round legs.1,
                totalDuration := round legs.2, route := waypoints,
                failedDestinations := rf.2 }

theorem resolveDestinations_lengths (geo : String → Except String Coord)
    (l : List Dest) (i : ℕ) (coords : List Coord) (failed : List FailedDestination) :
    (resolveDestinations geo l i coords failed).1.length
      + (resolveDestinations geo l i coords failed).2.length
      = coords.length + failed.length + l.length := by
  induction l generalizing i coords failed with
  | nil => simp [resolveDestinations]
  | cons d rest ih =>
    cases d with
    | coord c =>
      rw [resolveDestinations]
      rw [ih]
      simp
      omega
    | addr s =>
      cases hg : geo s with
      | ok c =>
        rw [resolveDestinations, hg, ih]
        simp
        omega
      | error e =>
        rw [resolveDestinations, hg, ih]
        simp
        omega

theorem sumLegs_nonneg : ∀ ws : List Coord, 0 ≤ (sumLegs ws).1 ∧ 0 ≤ (sumLegs ws).2
  | [] => by simp [sumLegs]
  | [p] => by simp [sumLegs]
  | p :: q :: rest => by
    obtain ⟨ih1, ih2⟩ := sumLegs_nonneg (q :: rest)
    by_cases hm : (calculateDistance p q).meters < 0
    · simp only [sumLegs, if_pos hm]
      exact ⟨ih1, ih2⟩
    · push_neg at hm
      simp only [sumLegs, if_neg (not_lt.mpr hm)]
      constructor
      · exact add_nonneg ih1 hm
      · have h15 : 0 ≤ (calculateDistance p q).meters / 1000 * 1.5 := by positivity
        exact add_nonneg ih2 h15

theorem round_nonneg_of_nonneg {x : ℝ} (h : 0 ≤ x) : 0 ≤ round x := by
  rw [round_eq]
  exact Int.le_floor.mpr (by push_cast; linarith)

theorem resolveDestinations_all_fail (geo : String → Except String Coord)
    (l : List Dest)
    (hall : ∀ d ∈ l, ∃ s, d = .addr s ∧ ∃ e, geo s = .error e)
    (i : ℕ) (coords : List Coord) (failed : List FailedDestination) :
    (resolveDestinations geo l i coords failed).1 = coords := by
  induction l generalizing i coords failed with
  | nil => simp [resolveDestinations]
  | cons d rest ih =>
    obtain ⟨s, rfl, e, hg⟩ := hall d (by simp)
    rw [resolveDestinations, hg]
    exact ih (fun d hd => hall d (by simp [hd])) _ _ _

/-- C4: every successful `calculateRoute` call satisfies the result
invariants: ordered (resolved) destinations plus failed destinations count
the destinations surviving input validation; the waypoint list has exactly
one more element than the resolved destinations (it begins with the origin);
and the total distance is non-negative. -/
theorem calculateRoute_invariants (geo : String → Except String Coord)
    (origin : Dest) (destinations : List Dest) (r : RouteResult)
    (h : calculateRoute geo origin destinations = .ok r) :
    (r.waypoints.length - 1) + r.failedDestinations.length
        = (destinations.filter Dest.keep).length
    ∧ 1 ≤ r.waypoints.length
    ∧ 0 ≤ r.totalDistance := by
  simp only [calculateRoute] at h
  split at h
  · exact absurd h (by simp)
  split at h
  · exact absurd h (by simp)
  split at h
  · exact absurd h (by simp)
  split at h
  · exact absurd h (by simp)
  next originCoords horig =>
    split at h
    · exact absurd h (by simp)
    next hlen =>
      simp only [Except.ok.injEq] at h
      subst h
      refine ⟨?_, by simp, round_nonneg_of_nonneg (sumLegs_nonneg _).1⟩
      have hl := resolveDestinations_lengths geo (destinations.filter Dest.keep) 0 [] []
      simp at hl
      simpa using hl

theorem calculateRoute_invariants_witness :
    calculateRoute (fun _ => .error "unused") (.coord ⟨0, 0⟩) [.coord ⟨0, 0⟩]
        = .ok ⟨[⟨0, 0⟩, ⟨0, 0⟩], 0, 0, [⟨0, 0⟩, ⟨0, 0⟩], []⟩
    ∧ (((⟨[⟨0, 0⟩, ⟨0, 0⟩], 0, 0, [⟨0, 0⟩, ⟨0, 0⟩], []⟩ : RouteResult).waypoints.length - 1)
          + (⟨[⟨0, 0⟩, ⟨0, 0⟩], 0, 0, [⟨0, 0⟩, ⟨0, 0⟩], []⟩ : RouteResult).failedDestinations.length
        = ([Dest.coord ⟨0, 0⟩].filter Dest.keep).length
      ∧ 1 ≤ (⟨[⟨0, 0⟩, ⟨0, 0⟩], 0, 0, [⟨0, 0⟩, ⟨0, 0⟩], []⟩ : RouteResult).waypoints.length
      ∧ 0 ≤ (⟨[⟨0, 0⟩, ⟨0, 0⟩], 0, 0, [⟨0, 0⟩, ⟨0, 0⟩], []⟩ : RouteResult).totalDistance) := by
  have hm : (calculateDistance (⟨0, 0⟩ : Coord) ⟨0, 0⟩).meters = 0 := by
    simp [calculateDistance, haversineMeters_self]
  have hs : sumLegs [(⟨0, 0⟩ : Coord), ⟨0, 0⟩] = (0, 0) := by
    simp [sumLegs, hm]
  have h : calculateRoute (fun _ => .error "unused") (.coord ⟨0, 0⟩) [.coord ⟨0, 0⟩]
      = .ok ⟨[⟨0, 0⟩, ⟨0, 0⟩], 0, 0, [⟨0, 0⟩, ⟨0, 0⟩], []⟩ := by
    simp [calculateRoute, Dest.isFalsy, Dest.keep, resolveDestinations, hs]
  exact ⟨h, calculateRoute_invariants _ _ _ _ h⟩

/-- C2 counterexample: with a valid origin and a single unresolvable
destination, `calculateRoute` throws (returns an error) instead of returning
a result object with empty `orderedDestinations` and one
`failedDestinations` entry. -/
theorem calculateRoute_single_failure_raises :
    calculateRoute (fun _ => .error "boom") (.coord ⟨0, 0⟩) [.addr "X"]
      = .error "Failed to geocode any destinations. Errors: boom" := by
  have hk : Dest.keep (.addr "X") = true := by decide
  simp [calculateRoute, Dest.isFalsy, hk, resolveDestinations, String.intercalate]
  decide

/-- C2 (amended): when, after input validation, every remaining destination
fails to geocode (in particular a single unresolvable destination),
`calculateRoute` raises an error rather than returning a result object. -/
theorem calculateRoute_all_failures_raise (geo : String → Except String Coord)
    (origin : Dest) (destinations : List Dest)
    (hall : ∀ d ∈ destinations.filter Dest.keep, ∃ s, d = .addr s ∧ ∃ e, geo s = .error e) :
    ∃ msg, calculateRoute geo origin destinations = .error msg := by
  simp only [calculateRoute]
  split
  · exact ⟨_, rfl⟩
  split
  · exact ⟨_, rfl⟩
  split
  · exact ⟨_, rfl⟩
  split
  · exact ⟨_, rfl⟩
  next originCoords horig =>
    have hrf : (resolveDestinations geo (destinations.filter Dest.keep) 0 [] []).1 = [] :=
      resolveDestinations_all_fail geo _ hall 0 [] []
    rw [hrf]
    simp

theorem calculateRoute_all_failures_raise_witness :
    (∀ d ∈ ([Dest.addr "X"].filter Dest.keep), ∃ s, d = .addr s
        ∧ ∃ e, (fun _ => (.error "boom" : Except String Coord)) s = .error e)
    ∧ ∃ msg, calculateRoute (fun _ => .error "boom") (.coord ⟨0, 0⟩) [.addr "X"]
        = .error msg := by
  have hk : Dest.keep (.addr "X") = true := by decide
  have hall : ∀ d ∈ ([Dest.addr "X"].filter Dest.keep), ∃ s, d = .addr s
      ∧ ∃ e, (fun _ => (.error "boom" : Except String Coord)) s = .error e := by
    intro d hd
    simp [hk] at hd
    subst hd
    exact ⟨"X", rfl, "boom", rfl⟩
  exact ⟨hall, calculateRoute_all_failures_raise _ _ _ hall⟩

/-! ### Route optimization (`optimizeRoute`, DeliveryRouteMap.jsx:102-146) -/

/-- A destination record as built at DeliveryRouteMap.jsx:52-57 (the fields
the optimizer reads: identity and the address it geocodes). -/
structure DestRec where
  id : String
  address : String
deriving DecidableEq

/-- A JavaScript value as it appears in the optimizer's relational
comparison `distance < nearestDistance` (DeliveryRouteMap.jsx:120): a plain
number, `Infinity` (the initial `nearestDistance`), or the
`{meters, kilometers, miles}` object that `calculateDistance` returns. -/
inductive JSVal where
  | num (x : ℝ)
  | posInf
  | obj (d : DistanceResult)

/-- What a value converts to on the number path of the JS abstract
relational comparison: `ToPrimitive` of a plain object is the string
"[object Object]", whose `ToNumber` is NaN. -/
inductive JSCmpVal where
  | fin (x : ℝ)
  | posInf
  | nan

def JSVal.toCmp : JSVal → JSCmpVal
  | .num x => .fin x
  | .posInf => .posInf
  | .obj _ => .nan

open Classical in
/-- The JS `<` comparison: any side converting to NaN makes it false. -/
noncomputable def jsLt (a b : JSVal) : Bool :=
  match a.toCmp, b.toCmp with
  | .nan, _ => false
  | _, .nan => false
  | .fin x, .fin y => decide (x < y)
  | .fin _, .posInf => true
  | .posInf, _ => false

/-- The inner scan at DeliveryRouteMap.jsx:114-128: walk the unvisited list,
geocode each destination (skipping it on a thrown geocode error) and keep
the state `(nearest, nearestDistance, nearestIndex)`, replacing it whenever
`distance < nearestDistance` — where `distance` is the OBJECT returned by
`calculateDistance`. -/
noncomputable def scanNearest (geo : String → Except String Coord) (current : Coord) :
    List DestRec → ℕ → Option DestRec × JSVal × ℤ → Option DestRec × JSVal × ℤ
  | [], _, st => st
  | dest :: rest, i, st =>
    let st' := match geo dest.address with
      | .error _ => st
      | .ok coords =>
        let distance := JSVal.obj (calculateDistance current coords)
        if jsLt distance st.2.1 then (some dest, distance, (i : ℤ)) else st
    scanNearest geo current rest (i + 1) st'

/-- The `while (unvisited.length > 0)` loop at DeliveryRouteMap.jsx:109-139,
with fuel (`destinations.length + 1` suffices: every iteration either breaks
or removes one element). When a nearest candidate is found it is appended
and the loop continues from its coordinate; when none is found the remaining
unvisited destinations are appended in order and the loop breaks. An
`error` models a throw reaching the outer catch (which returns the original
input list). -/
noncomputable def optimizeLoop (geo : String → Except String Coord) :
    ℕ → Coord → List DestRec → List DestRec → Except Unit (List DestRec)
  | 0, _, _, optimized => .ok optimized
  | fuel + 1, current, unvisited, optimized =>
    if unvisited = [] then .ok optimized
    else
      match scanNearest geo current unvisited 0 (none, .posInf, -1) with
      | (some nearest, _, nearestIndex) =>
        match geo nearest.address with
        | .ok c =>
            optimizeLoop geo fuel c (unvisited.eraseIdx nearestIndex.toNat)
              (optimized ++ [nearest])
        | .error _ => .error ()
      | (none, _, _) => .ok (optimized ++ unvisited)

/-- `optimizeRoute` (DeliveryRouteMap.jsx:102-146). -/
noncomputable def optimizeRoute (geo : String → Except String Coord)
    (start : Coord) (destinations : List DestRec) : List DestRec :=
  match optimizeLoop geo (destinations.length + 1) start destinations [] with
  | .ok l => l
  | .error _ => destinations

theorem jsLt_obj_false (d : DistanceResult) (v : JSVal) : jsLt (.obj d) v = false := by
  cases v <;> rfl

/-- The scan never updates its state: the comparison at
DeliveryRouteMap.jsx:120 compares the `calculateDistance` OBJECT against a
number, which in JS converts the object to NaN and is therefore always
false, so `nearest` is never assigned. -/
theorem scanNearest_id (geo : String → Except String Coord) (current : Coord)
    (l : List DestRec) : ∀ (i : ℕ) (st : Option DestRec × JSVal × ℤ),
    scanNearest geo current l i st = st := by
  induction l with
  | nil => intro i st; rfl
  | cons d rest ih =>
    intro i st
    rw [scanNearest]
    cases hg : geo d.address with
    | error e => simp only [hg]; exact ih _ _
    | ok c => simp only [hg, jsLt_obj_false, Bool.false_eq_true, if_false]; exact ih _ _

theorem optimizeLoop_ok (geo : String → Except String Coord) (fuel : ℕ) (current : Coord)
    (unvisited optimized : List DestRec) :
    optimizeLoop geo (fuel + 1) current unvisited optimized = .ok (optimized ++ unvisited) := by
  by_cases h : unvisited = []
  · subst h; simp [optimizeLoop]
  · rw [optimizeLoop, if_neg h, scanNearest_id]

/-- Because the nearest-candidate comparison is always false, `optimizeRoute`
returns its input order for every geocoder, start point and destination
list. -/
theorem optimizeRoute_eq_input (geo : String → Except String Coord) (start : Coord)
    (destinations : List DestRec) :
    optimizeRoute geo start destinations = destinations := by
  rw [optimizeRoute, optimizeLoop_ok]
  simp

/-- Geocoder of the end-to-end scenario: three pre-resolved destinations at
(0,1), (0,3) and (0,2). -/
def geoScenario : String → Except String Coord := fun s =>
  if s = "A" then .ok ⟨0, 1⟩
  else if s = "B" then .ok ⟨0, 3⟩
  else if s = "C" then .ok ⟨0, 2⟩
  else .error "No results found"

/-- C1 (code-bug evidence): on the end-to-end scenario with origin (0,0) and
pre-resolved destinations at (0,1), (0,3), (0,2), `optimizeRoute` returns
the destinations in INPUT order — (0,1), (0,3), (0,2) — not the claimed
nearest-first order (0,1), (0,2), (0,3): `calculateDistance` returns an
object, and the JS comparison `object < number` is always false, so no
nearest candidate is ever selected and the whole unvisited list is appended
as-is. -/
theorem optimizeRoute_returns_input_order :
    optimizeRoute geoScenario ⟨0, 0⟩ [⟨"1", "A"⟩, ⟨"2", "B"⟩, ⟨"3", "C"⟩]
        = [⟨"1", "A"⟩, ⟨"2", "B"⟩, ⟨"3", "C"⟩]
    ∧ ([⟨"1", "A"⟩, ⟨"2", "B"⟩, ⟨"3", "C"⟩] : List DestRec)
        ≠ [⟨"1", "A"⟩, ⟨"3", "C"⟩, ⟨"2", "B"⟩] :=
  ⟨optimizeRoute_eq_input geoScenario ⟨0, 0⟩ _, by decide⟩

/-! ### Current-location resolution
(`MapsService.getCurrentLocationWithFallback`, maps.js:457-539) -/

/-- A successful reading of the device sensor (`getCurrentLocation`,
maps.js:412-454). -/
structure SensorPos where
  lat : ℝ
  lng : ℝ
  accuracy : ℝ

/-- The location object `getCurrentLocationWithFallback` returns. -/
structure JSLocation where
  lat : ℝ
  lng : ℝ
  accuracy : Option ℝ
  isApproximate : Bool
  isDefault : Bool

/-- The coordinate fields one IP-geolocation provider yields after the
per-format extraction at maps.js:500-506 (`latitude`/`longitude` for ipapi,
`lat`/`lon` for ip-api): JSON numbers, or absent. `none` models a missing
field; a JS NaN value behaves like `0` here (both falsy), so it needs no
separate constructor. -/
structure IpData where
  lat : Option ℝ
  lng : Option ℝ

/-- Outcome of one IP-geolocation service call (maps.js:482-523): the fetch
or JSON parse threw (caught, next service), the response was not ok
(`continue`), or a parsed payload. -/
inductive IpOutcome where
  | throwing
  | notOk
  | payload (d : IpData)

open Classical in
/-- The validation at maps.js:509: `lat && lng && !isNaN(parseFloat(lat)) &&
!isNaN(parseFloat(lng))`. A JSON number is truthy exactly when it is
non-zero, and `parseFloat` of a (non-NaN) number never yields NaN, so the
check accepts exactly non-zero pairs. -/
noncomputable def ipValid (d : IpData) : Option (ℝ × ℝ) :=
  match d.lat, d.lng with
  | some la, some ln => if la ≠ 0 ∧ ln ≠ 0 then some (la, ln) else none
  | _, _ => none

/-- The service loop at maps.js:482-523: first provider whose payload passes
validation wins. -/
noncomputable def tryIpServices : List IpOutcome → Option (ℝ × ℝ)
  | [] => none
  | .throwing :: rest => tryIpServices rest
  | .notOk :: rest => tryIpServices rest
  | .payload d :: rest =>
    match ipValid d with
    | some p => some p
    | none => tryIpServices rest

/-- `getCurrentLocationWithFallback` (maps.js:457-539) over oracles for the
device sensor and the IP-geolocation services: sensor success is returned
with `isApproximate = isDefault = false`; on sensor failure the first valid
IP result is returned with accuracy 50000 and `isApproximate = true`; and
when everything fails, the fixed San Francisco default with
`isDefault = true`. The function is total: it never raises. -/
noncomputable def getCurrentLocationWithFallback
    (sensor : Except String SensorPos) (ips : List IpOutcome) : JSLocation :=
  match sensor with
  | .ok p => ⟨p.lat, p.lng, some p.accuracy, false, false⟩
  | .error _ =>
    match tryIpServices ips with
    | some (la, ln) => ⟨la, ln, some 50000, true, false⟩
    | none => ⟨37.7749, -122.4194, none, false, true⟩

/-- The confidence tier a returned location carries, read off its flags. -/
inductive Tier where
  | precise
  | ipBased
  | defaultTier
deriving DecidableEq

def tierOf (r : JSLocation) : Tier :=
  if r.isDefault then .defaultTier else if r.isApproximate then .ipBased else .precise

/-- C3: `getCurrentLocationWithFallback` is total (never raises — it is a
function into `JSLocation`), and degrades in order precise → ip-based →
default: a sensor success yields the precise tier with the sensor's
coordinates; on sensor failure the first parsable IP provider yields the
ip-based tier; when every upstream fails the result is the default tier
carrying the fixed coordinate (37.7749, -122.4194). -/
theorem getCurrentLocationWithFallback_tiers
    (sensor : Except String SensorPos) (ips : List IpOutcome) :
    (∀ p, sensor = .ok p →
        tierOf (getCurrentLocationWithFallback sensor ips) = .precise
        ∧ (getCurrentLocationWithFallback sensor ips).lat = p.lat
        ∧ (getCurrentLocationWithFallback sensor ips).lng = p.lng)
    ∧ (∀ e, sensor = .error e → ∀ la ln, tryIpServices ips = some (la, ln) →
        tierOf (getCurrentLocationWithFallback sensor ips) = .ipBased
        ∧ (getCurrentLocationWithFallback sensor ips).lat = la
        ∧ (getCurrentLocationWithFallback sensor ips).lng = ln)
    ∧ (∀ e, sensor = .error e → tryIpServices ips = none →
        tierOf (getCurrentLocationWithFallback sensor ips) = .defaultTier
        ∧ (getCurrentLocationWithFallback sensor ips).lat = 37.7749
        ∧ (getCurrentLocationWithFallback sensor ips).lng = -122.4194) := by
  refine ⟨?_, ?_, ?_⟩
  · rintro p rfl
    simp [getCurrentLocationWithFallback, tierOf]
  · rintro e rfl la ln hip
    simp [getCurrentLocationWithFallback, hip, tierOf]
  · rintro e rfl hip
    simp [getCurrentLocationWithFallback, hip, tierOf]

theorem getCurrentLocationWithFallback_tiers_witness :
    ((.error "denied" : Except String SensorPos) = .error "denied")
    ∧ tryIpServices [.throwing, .notOk] = none
    ∧ tierOf (getCurrentLocationWithFallback (.error "denied") [.throwing, .notOk])
        = .defaultTier
    ∧ (getCurrentLocationWithFallback (.error "denied") [.throwing, .notOk]).lat
        = 37.7749 := by
  have hip : tryIpServices [.throwing, .notOk] = none := by
    simp [tryIpServices]
  refine ⟨rfl, hip, ?_, ?_⟩
  · exact ((getCurrentLocationWithFallback_tiers (.error "denied")
      [.throwing, .notOk]).2.2 "denied" rfl hip).1
  · exact ((getCurrentLocationWithFallback_tiers (.error "denied")
      [.throwing, .notOk]).2.2 "denied" rfl hip).2.1

theorem ipValid_nonzero :
    ∀ (d : IpData) (la ln : ℝ), ipValid d = some (la, ln) → la ≠ 0 ∧ ln ≠ 0 := by
  rintro ⟨dlat, dlng⟩ la ln h
  cases dlat with
  | none => exact absurd h (by simp [ipValid])
  | some la' =>
    cases dlng with
    | none => exact absurd h (by simp [ipValid])
    | some ln' =>
      by_cases hc : la' ≠ 0 ∧ ln' ≠ 0
      · simp [ipValid, hc] at h
        obtain ⟨rfl, rfl⟩ := h
        exact hc
      · simp [ipValid, hc] at h

theorem tryIpServices_nonzero :
    ∀ (l : List IpOutcome) (la ln : ℝ), tryIpServices l = some (la, ln) → la ≠ 0 ∧ ln ≠ 0 := by
  intro l
  induction l with
  | nil => intro la ln h; exact absurd h (by simp [tryIpServices])
  | cons o rest ih =>
    intro la ln h
    cases o with
    | throwing => rw [tryIpServices] at h; exact ih la ln h
    | notOk => rw [tryIpServices] at h; exact ih la ln h
    | payload d =>
      rw [tryIpServices] at h
      cases hv : ipValid d with
      | none => rw [hv] at h; exact ih la ln h
      | some p =>
        rw [hv] at h
        obtain ⟨pla, pln⟩ := p
        have hz := ipValid_nonzero d pla pln hv
        simp at h
        exact ⟨h.1 ▸ hz.1, h.2 ▸ hz.2⟩

/-- C10: the falsy-value check at maps.js:509 rejects a provider whose
latitude or longitude equals exactly 0, so such a provider is skipped and no
ip-based result ever carries latitude 0 or longitude 0 — even when a
provider genuinely reports a point on the equator or prime meridian. -/
theorem ip_zero_coordinate_rejected
    (sensor : Except String SensorPos) (ips : List IpOutcome) (d : IpData) :
    ((getCurrentLocationWithFallback sensor ips).isApproximate = true →
        (getCurrentLocationWithFallback sensor ips).lat ≠ 0
        ∧ (getCurrentLocationWithFallback sensor ips).lng ≠ 0)
    ∧ ((d.lat = some 0 ∨ d.lng = some 0) → ipValid d = none) := by
  constructor
  · intro happ
    cases sensor with
    | ok p => simp [getCurrentLocationWithFallback] at happ
    | error e =>
      cases hip : tryIpServices ips with
      | none => simp [getCurrentLocationWithFallback, hip] at happ
      | some p =>
        obtain ⟨la, ln⟩ := p
        have hz := tryIpServices_nonzero ips la ln hip
        simp only [getCurrentLocationWithFallback, hip]
        exact hz
  · intro h0
    obtain ⟨dlat, dlng⟩ := d
    rcases h0 with h | h
    · simp only at h
      subst h
      cases dlng with
      | none => simp [ipValid]
      | some ln' => simp [ipValid]
    · simp only at h
      subst h
      cases dlat with
      | none => simp [ipValid]
      | some la' => simp [ipValid]

theorem ip_zero_coordinate_rejected_witness :
    (getCurrentLocationWithFallback (.error "denied")
        [.payload ⟨some 0, some 10⟩]).isApproximate = false
    ∧ ipValid ⟨some 0, some 10⟩ = none := by
  have hv : ipValid ⟨some 0, some 10⟩ = none :=
    (ip_zero_coordinate_rejected (.error "denied") [.payload ⟨some 0, some 10⟩]
      ⟨some 0, some 10⟩).2 (Or.inl rfl)
  constructor
  · simp [getCurrentLocationWithFallback, tryIpServices, hv]
  · exact hv

/-! ### Periodic tracking tick (DeliveryDashboard.jsx:78-106) and tracking
membership (DeliveryDashboard.jsx:161-173) -/

/-- One `wsService.sendLocationUpdate(orderId, lat, lng)` emission
(DeliveryDashboard.jsx:95-99). -/
structure PositionUpdate where
  orderId : String
  lat : ℝ
  lng : ℝ

/-- The emissions of one interval tick (DeliveryDashboard.jsx:92-101), as a
function of the set instance the callback READS and the freshly resolved
location: when the location is not the default-tier fallback
(`!newLocation.isDefault`) and that set is non-empty, its `forEach` sends
one update per member; otherwise nothing is sent. Which set instance the
callback reads is determined by the closure semantics modelled in
`DashboardSession` below. -/
noncomputable def tickUpdates (trackingOrders : Finset String)
    (newLocation : JSLocation) : List PositionUpdate :=
  if newLocation.isDefault = false ∧ 0 < trackingOrders.card then
    trackingOrders.toList.map (fun orderId => ⟨orderId, newLocation.lat, newLocation.lng⟩)
  else []

/-- The tracking-set transition `setTrackingOrders` performs in
`updateOrderStatus` (DeliveryDashboard.jsx:161-173): a "picked-up"
transition builds the state with the order inserted, "delivered" with it
removed, anything else leaves the state unchanged. Each transition produces
a NEW `Set` instance (`new Set([...prev, orderId])` at line 163,
`new Set(prev)` at line 166). -/
noncomputable def applyStatusTracking (trackingOrders : Finset String)
    (orderId newStatus : String) : Finset String :=
  if newStatus = "picked-up" then insert orderId trackingOrders
  else if newStatus = "delivered" then trackingOrders.erase orderId
  else trackingOrders

/-- The dashboard state relevant to tracking. `trackingOrders` is the
current React state (what `isTracking` and re-renders read);
`capturedOrders` is the `Set` instance the interval callback created in
`startLocationTracking` closed over. The callback at
DeliveryDashboard.jsx:92-100 references the `trackingOrders` binding of the
render in which the mount effect (lines 33-40) ran, and `setTrackingOrders`
never mutates that instance — it only replaces the state with new `Set`
instances — so the two components evolve independently. -/
structure DashboardSession where
  trackingOrders : Finset String
  capturedOrders : Finset String

/-- Mounting the dashboard: `trackingOrders` is initialised to
`new Set()` (DeliveryDashboard.jsx:27) and `startLocationTracking` (run from
the mount effect) captures that empty instance in its interval callback. -/
noncomputable def mountSession : DashboardSession :=
  ⟨∅, ∅⟩

/-- `updateOrderStatus` (DeliveryDashboard.jsx:143-180) acting on the
session: the state transitions per `applyStatusTracking`; the instance
captured by the interval callback is untouched. -/
noncomputable def sessionUpdateOrderStatus (s : DashboardSession)
    (orderId newStatus : String) : DashboardSession :=
  ⟨applyStatusTracking s.trackingOrders orderId newStatus, s.capturedOrders⟩

/-- One interval tick as the program executes it: the callback reads the set
instance it closed over, not the current state. -/
noncomputable def sessionTick (s : DashboardSession) (newLocation : JSLocation) :
    List PositionUpdate :=
  tickUpdates s.capturedOrders newLocation

theorem sessionUpdates_captured (ops : List (String × String)) :
    (ops.foldl (fun s p => sessionUpdateOrderStatus s p.1 p.2) mountSession).capturedOrders
      = ∅ := by
  suffices h : ∀ s : DashboardSession,
      (ops.foldl (fun s p => sessionUpdateOrderStatus s p.1 p.2) s).capturedOrders
        = s.capturedOrders by
    rw [h mountSession]; rfl
  induction ops with
  | nil => intro s; rfl
  | cons p rest ih => intro s; rw [List.foldl_cons, ih]; rfl

/-- C9 (code-bug evidence): after mounting the dashboard and marking order
"o1" picked-up, the order IS in the current tracking state and the resolved
location below is not default-tier, yet the tick emits nothing — and more
generally, after ANY sequence of `updateOrderStatus` transitions, a tick
emits no update for any order and any resolved location: the interval
callback closed over the initial empty `Set`, and `setTrackingOrders` only
replaces the state with new instances, so `trackingOrders.size > 0` inside
the callback is permanently false. -/
theorem tracking_tick_never_emits :
    "o1" ∈ (sessionUpdateOrderStatus mountSession "o1" "picked-up").trackingOrders
    ∧ (⟨1, 2, some 5, false, false⟩ : JSLocation).isDefault = false
    ∧ ∀ (ops : List (String × String)) (loc : JSLocation),
        sessionTick (ops.foldl (fun s p => sessionUpdateOrderStatus s p.1 p.2) mountSession)
          loc = [] := by
  refine ⟨?_, rfl, ?_⟩
  · rw [sessionUpdateOrderStatus]
    simp only [applyStatusTracking, if_pos rfl]
    exact Finset.mem_insert_self "o1" mountSession.trackingOrders
  · intro ops loc
    rw [sessionTick, sessionUpdates_captured]
    rw [tickUpdates, if_neg]
    simp

end DeliveryFlow
